import Mathlib

/-!
Shallow embedding of the `ic-thermal-diffusion-daq` repository: three
laboratory data-acquisition scripts (`acquire_thermal_diffusion_mcc.py`,
`read_2_channels.py`, `read_4_channels_and_output.py`) driving an MCC DAQ
board.  The pure computation steps of each script (point-count arithmetic,
output-waveform construction, flat-to-matrix reshaping, row decimation,
name/attribute binding, cleanup call sequences) are translated here as
executable Lean definitions, and the behavioural claims about them are
settled as theorems.

Numeric values computed by the scripts (numpy float64 / int) are modelled
as `ℚ` / `ℤ`; buffers as `List`s.  numpy array primitives used by the
scripts (`np.zeros` + basic slice assignment, strided slice assignment
with its broadcast length check, `reshape(-1, cols)`, `a[::n]` decimation)
are modelled by the functions below.
-/

namespace ICThermalDAQ

/-- numpy basic slice assignment `a[s:t] = v` (scalar broadcast): entry `i`
becomes `v` when `s ≤ i < t`, everything else is kept; out-of-range parts
of the slice are clamped, as in numpy.  The first `ℕ` argument is the
index of the head of the remaining list. -/
def setRangeAux (s t : ℕ) (v : ℚ) : ℕ → List ℚ → List ℚ
  | _, [] => []
  | i, x :: xs => (if s ≤ i ∧ i < t then v else x) :: setRangeAux s t v (i + 1) xs

/-- numpy `a[s:t] = v` on a whole array. -/
def setRange (a : List ℚ) (s t : ℕ) (v : ℚ) : List ℚ :=
  setRangeAux s t v 0 a

/-- numpy strided slice assignment `a[::n] = b` writes `b` into the slots
at indices `0, n, 2n, …`; a length-1 `b` broadcasts, repeating its single
element at every slot.  The auxiliary index argument tracks the absolute
position of the head. -/
def strideAssignAux (n : ℕ) (b : List ℚ) : ℕ → List ℚ → List ℚ
  | _, [] => []
  | i, x :: xs =>
      (if i % n = 0 then b.getD (if b.length = 1 then 0 else i / n) x else x)
        :: strideAssignAux n b (i + 1) xs

/-- numpy `a[::n] = b`: the slice `a[::n]` has `⌈len(a)/n⌉` slots, and the
assignment succeeds when `len(b)` equals that slot count or `len(b) = 1`
(a size-1 array broadcasts to any slot count); any other length is a
numpy broadcast `ValueError`, modelled as `none`. -/
def strideAssign (a : List ℚ) (n : ℕ) (b : List ℚ) : Option (List ℚ) :=
  if b.length = (a.length + n - 1) / n ∨ b.length = 1 then
    some (strideAssignAux n b 0 a)
  else none

/-- Row-major chunking, fuelled by the list length. -/
def reshapeAux (cols : ℕ) : ℕ → List α → List (List α)
  | 0, _ => []
  | _, [] => []
  | fuel + 1, x :: xs => ((x :: xs).take cols) :: reshapeAux cols fuel ((x :: xs).drop cols)

/-- numpy `a.reshape(-1, cols)`: split the flat row-major array into
consecutive rows of width `cols`. -/
def reshape (a : List α) (cols : ℕ) : List (List α) :=
  reshapeAux cols a.length a

/-- numpy `a[::n]` as an expression (decimation): elements at indices
`0, n, 2n, …`. -/
def decimate (n : ℕ) : List α → List α
  | [] => []
  | x :: xs => x :: decimate n (xs.drop (n - 1))
termination_by xs => xs.length
decreasing_by
  simp only [List.length_drop, List.length_cons]
  omega

/-!
Embedding of `acquire_thermal_diffusion_mcc.py` (the thermal-diffusion
script).  `MCCInterface.__init__` fixes `adc_rate_per_channel = 10000`,
`dac_rate = 100`, input channels 0..6; `measure(pulse_length, lag_time,
duration, outfname)` computes point counts, builds the output waveform,
runs the scans, assembles a time-by-channel matrix and saves it.
-/

/-- Point counts computed at the top of `measure` (lines 69-71):
`total_meas_time_sec = lag_time + duration`,
`ain_pts_per_channel = np.floor(total_meas_time_sec * adc_rate_per_channel)`,
`aout_pts = np.floor(total_meas_time_sec * dac_rate)`. -/
structure MeasureCounts where
  total_meas_time_sec : ℚ
  ain_pts_per_channel : ℤ
  aout_pts : ℤ

/-- The point-count computation of `measure`, with the script's rate
attributes as parameters. -/
def measureCounts (adc_rate_per_channel dac_rate lag_time duration : ℚ) :
    MeasureCounts :=
  let total_meas_time_sec := lag_time + duration
  { total_meas_time_sec := total_meas_time_sec
    ain_pts_per_channel := ⌊total_meas_time_sec * adc_rate_per_channel⌋
    aout_pts := ⌊total_meas_time_sec * dac_rate⌋ }

/-- The local names of `measure` that have been assigned (parameters
included) when control reaches the input-buffer allocation
`ul.win_buf_alloc(total_count)` on line 76. -/
def measureNamesBoundAtAlloc : List String :=
  ["self", "pulse_length", "lag_time", "duration", "outfname",
   "total_meas_time_sec", "ain_pts_per_channel", "aout_pts", "total_input_pts"]

/-- The numeric local environment of `measure` at the allocation on
line 76, mapping each assigned local name to its value (lines 69-73).
The `self` attributes (`adc_rate_per_channel`, `dac_rate`, and the
channel count `n_in_channels` read on line 73) are passed as parameters;
integer-valued locals are embedded into `ℚ`. -/
def measureLocalsAtAlloc (pulse_length lag_time duration
    adc_rate_per_channel dac_rate n_in : ℚ) : List (String × ℚ) :=
  let total_meas_time_sec := lag_time + duration
  let ain_pts_per_channel : ℚ := (⌊total_meas_time_sec * adc_rate_per_channel⌋ : ℤ)
  let aout_pts : ℚ := (⌊total_meas_time_sec * dac_rate⌋ : ℤ)
  [("pulse_length", pulse_length), ("lag_time", lag_time),
   ("duration", duration),
   ("total_meas_time_sec", total_meas_time_sec),
   ("ain_pts_per_channel", ain_pts_per_channel),
   ("aout_pts", aout_pts),
   ("total_input_pts", ain_pts_per_channel * n_in)]

/-- The argument of the input-buffer allocation on line 76: Python looks
up the name `total_count` in the environment; an unbound name is a
`NameError`, modelled as `none`. -/
def allocSizeArg (env : List (String × ℚ)) : Option ℚ :=
  env.lookup "total_count"

/-- The output waveform construction of `measure` (lines 80-83):
`output_data = np.zeros(aout_pts)` followed by
`output_data[start_idx:stop_idx] = 5.` where
`start_idx = np.floor(lag_time * dac_rate)` and
`stop_idx = start_idx + np.floor(pulse_length * dac_rate)`.  Indices are
taken in `ℕ` via `Int.toNat`, faithful for the nonnegative durations and
rates the claims quantify over. -/
def output_data (pulse_length lag_time duration dac_rate : ℚ) : List ℚ :=
  let total_meas_time_sec := lag_time + duration
  let aout_ptsN : ℕ := (⌊total_meas_time_sec * dac_rate⌋).toNat
  let start_idx : ℕ := (⌊lag_time * dac_rate⌋).toNat
  let stop_idx : ℕ := start_idx + (⌊pulse_length * dac_rate⌋).toNat
  setRange (List.replicate aout_ptsN 0) start_idx stop_idx 5

/-- The time-interleaving step of `measure` (lines 108-110):
`voltage_array = np.zeros(total_input_pts + ain_pts_per_channel)` followed
by `voltage_array[::self.n_in_channels] = np.arange(ain_pts_per_channel)
/ actual_rate`, with `total_input_pts = ain_pts_per_channel *
n_in_channels`.  The strided assignment carries numpy's broadcast length
check. -/
def interleaveTimes (n_in ain_pts_per_channel : ℕ) (actual_rate : ℚ) :
    Option (List ℚ) :=
  strideAssign
    (List.replicate (ain_pts_per_channel * n_in + ain_pts_per_channel) 0)
    n_in
    ((List.range ain_pts_per_channel).map (fun (r : ℕ) => (r : ℚ) / actual_rate))

/-- The save step of `measure` (lines 119-121): the full-resolution matrix
to `outfname + ".npy"`, and the decimated matrix `voltage_array[::100]` to
both `outfname + "_100Hz.npy"` and `outfname + "_100Hz.txt"`. -/
def measureSaves (outfname : String) (voltage_array : List (List ℚ)) :
    List (String × List (List ℚ)) :=
  [(outfname ++ ".npy", voltage_array),
   (outfname ++ "_100Hz.npy", decimate 100 voltage_array),
   (outfname ++ "_100Hz.txt", decimate 100 voltage_array)]

/-!
Driver-call traces, initialization, and cleanup.  Devices are opaque
identifiers (`ℕ`); driver calls made by the scripts are recorded in order.
-/

/-- The two driver memory buffers a script allocates: the raw input sample
buffer (`win_buf_alloc`) and the scaled output waveform buffer
(`scaled_win_buf_alloc`). -/
inductive Buf where
  | inputBuf : Buf
  | outputBuf : Buf
deriving DecidableEq

/-- Driver (`mcculw.ul`) calls visible in the traces we reason about. -/
inductive DriverOp where
  | ignoreInstacal : DriverOp
  | createDaqDevice : ℕ → ℕ → DriverOp
  | aInputModeSingleEnded : ℕ → DriverOp
  | winBufFree : Buf → DriverOp
  | stopBackgroundAO : ℕ → DriverOp
deriving DecidableEq

/-- Python exceptions relevant to the scripts. -/
inductive PyErr where
  | indexError : PyErr
  | attributeError : String → PyErr
deriving DecidableEq

/-- The `self` attributes assigned in `MCCInterface.__init__` of the
thermal-diffusion script before line 50 executes (lines 45-49; numeric
attributes only, embedded into `ℚ`).  Line 50 is the defective statement
`self.n_in_channels - self.in_high_channel - self.in_low_channel + 1`,
which reads `self.n_in_channels` — absent from this environment. -/
def thermalAttrsAtLine50 : List (String × ℚ) :=
  [("board_number", 0), ("in_low_channel", 0), ("in_high_channel", 6)]

/-- `MCCInterface.__init__` of `acquire_thermal_diffusion_mcc.py`
(lines 42-66), as a driver-call trace plus outcome, parametrized by the
device inventory returned by `ul.get_daq_device_inventory`.  With no
device, `devices[0]` raises `IndexError`; otherwise the first device is
selected and line 50 then reads the never-assigned attribute
`n_in_channels`, raising `AttributeError` before the device-info queries
and the `a_input_mode` configuration are reached. -/
def initThermal (devices : List ℕ) : List DriverOp × Except PyErr Unit :=
  match devices with
  | [] => ([DriverOp.ignoreInstacal], Except.error PyErr.indexError)
  | d :: _ =>
      match (thermalAttrsAtLine50.lookup "n_in_channels" : Option ℚ) with
      | none =>
          ([DriverOp.ignoreInstacal, DriverOp.createDaqDevice 0 d],
           Except.error (PyErr.attributeError "n_in_channels"))
      | some _ =>
          ([DriverOp.ignoreInstacal, DriverOp.createDaqDevice 0 d,
            DriverOp.aInputModeSingleEnded 0], Except.ok ())

/-- Whether the `__main__` entry point of the thermal-diffusion script
(lines 131-133: `interface = MCCInterface()` then `interface.measure(…)`)
ever reaches the `measure` call: it does only when `__init__` completes. -/
def thermalMainReachesMeasure (devices : List ℕ) : Bool :=
  match (initThermal devices).2 with
  | Except.ok _ => true
  | Except.error _ => false

/-- `MCCInterface.__init__` of `read_2_channels.py` (lines 10-23), as a
driver-call trace plus outcome, parametrized by the device inventory and
by the device's reported list of supported analog-input ranges. -/
def initRead2 (devices : List ℕ) (supported_ranges : List ℕ) :
    List DriverOp × Except PyErr Unit :=
  match devices with
  | [] => ([DriverOp.ignoreInstacal], Except.error PyErr.indexError)
  | d :: _ =>
      match supported_ranges with
      | [] =>
          ([DriverOp.ignoreInstacal, DriverOp.createDaqDevice 0 d],
           Except.error PyErr.indexError)
      | _ :: _ =>
          ([DriverOp.ignoreInstacal, DriverOp.createDaqDevice 0 d,
            DriverOp.aInputModeSingleEnded 0], Except.ok ())

/-- The cleanup tail of `measure` in the thermal-diffusion script
(lines 124-127): `ul.win_buf_free(input_memhandle)` and
`ul.stop_background(board_number, AOFUNCTION)`.  The free of the output
buffer (line 125, `ul.win_buf_free(output_handle)`) is commented out in
the source, so no such call appears. -/
def thermalCleanup : List DriverOp :=
  [DriverOp.winBufFree Buf.inputBuf, DriverOp.stopBackgroundAO 0]

/-- The cleanup tail of `measure` in `read_4_channels_and_output.py`
(lines 82-84): frees the input buffer `memhandle` and stops the
background output scan; the output buffer `output_handle` is never
freed. -/
def read4Cleanup : List DriverOp :=
  [DriverOp.winBufFree Buf.inputBuf, DriverOp.stopBackgroundAO 0]

/-!
The persisted arrays of the three scripts.
-/

/-- A numpy array persisted with `np.save`: either one-dimensional (flat)
or two-dimensional (a matrix). -/
inductive SavedArray where
  | flat : List ℚ → SavedArray
  | matrix : List (List ℚ) → SavedArray
deriving DecidableEq

/-- Whether a persisted array is two-dimensional. -/
def SavedArray.isMatrix : SavedArray → Bool
  | SavedArray.matrix _ => true
  | SavedArray.flat _ => false

/-- `measure` of `read_2_channels.py` (lines 42-47): converts each raw
sample with `ul.to_eng_units` and saves the resulting one-dimensional
`voltage_array` directly — no reshape. -/
def read2Saved (to_eng_units : ℤ → ℚ) (raw : List ℤ) : SavedArray :=
  SavedArray.flat (raw.map to_eng_units)

/-- `measure` of `read_4_channels_and_output.py` (lines 72-79): converts
each raw sample, reshapes to width `in_high_channel - in_low_channel + 1
= 3 - 0 + 1` columns, and saves the matrix. -/
def read4Saved (to_eng_units : ℤ → ℚ) (raw : List ℤ) : SavedArray :=
  SavedArray.matrix (reshape (raw.map to_eng_units) (3 - 0 + 1))

/-- The object persisted by `measure` of the thermal-diffusion script
(lines 116-119): whatever `voltage_array` holds is reshaped to
`n_in_channels + 1` columns before `np.save`. -/
def thermalSaved (voltage_array : List ℚ) (n_in : ℕ) : SavedArray :=
  SavedArray.matrix (reshape voltage_array (n_in + 1))

/-! Lemmas about the numpy primitives. -/

theorem setRangeAux_length (s t : ℕ) (v : ℚ) :
    ∀ (i : ℕ) (a : List ℚ), (setRangeAux s t v i a).length = a.length := by
  intro i a
  induction a generalizing i with
  | nil => rfl
  | cons x xs ih => simp [setRangeAux, ih]

theorem setRangeAux_get (s t : ℕ) (v : ℚ) :
    ∀ (a : List ℚ) (i j : ℕ),
      (setRangeAux s t v i a)[j]? =
        (a[j]?).map (fun x => if s ≤ i + j ∧ i + j < t then v else x) := by
  intro a
  induction a with
  | nil => intro i j; simp [setRangeAux]
  | cons x xs ih =>
    intro i j
    cases j with
    | zero => simp [setRangeAux]
    | succ j =>
      simp only [setRangeAux, List.getElem?_cons_succ, ih (i + 1) j]
      have h : i + 1 + j = i + (j + 1) := by omega
      rw [h]

theorem setRange_length (a : List ℚ) (s t : ℕ) (v : ℚ) :
    (setRange a s t v).length = a.length :=
  setRangeAux_length s t v 0 a

theorem setRange_get (a : List ℚ) (s t : ℕ) (v : ℚ) (j : ℕ) :
    (setRange a s t v)[j]? =
      (a[j]?).map (fun x => if s ≤ j ∧ j < t then v else x) := by
  have h := setRangeAux_get s t v a 0 j
  simpa [setRange] using h

theorem reshapeAux_flatten (cols : ℕ) (hc : 0 < cols) :
    ∀ (fuel : ℕ) (a : List α), a.length ≤ fuel →
      (reshapeAux cols fuel a).flatten = a := by
  intro fuel
  induction fuel with
  | zero =>
    intro a ha
    have : a = [] := List.length_eq_zero.mp (Nat.le_zero.mp ha)
    subst this; rfl
  | succ fuel ih =>
    intro a ha
    cases a with
    | nil => rfl
    | cons x xs =>
      simp only [reshapeAux, List.flatten_cons]
      rw [ih ((x :: xs).drop cols) (by simp at ha ⊢; omega)]
      exact List.take_append_drop cols (x :: xs)

theorem reshapeAux_length (cols : ℕ) (hc : 0 < cols) :
    ∀ (rows fuel : ℕ) (a : List α), a.length = rows * cols → a.length ≤ fuel →
      (reshapeAux cols fuel a).length = rows := by
  intro rows
  induction rows with
  | zero =>
    intro fuel a ha _
    have : a = [] := List.length_eq_zero.mp (by omega)
    subst this
    cases fuel <;> rfl
  | succ rows ih =>
    intro fuel a ha hfuel
    have hlen : 0 < a.length := by
      have : 0 < (rows + 1) * cols := Nat.mul_pos (Nat.succ_pos rows) hc
      omega
    cases a with
    | nil => simp at hlen
    | cons x xs =>
      cases fuel with
      | zero => simp at hfuel
      | succ fuel =>
        simp only [reshapeAux, List.length_cons]
        rw [ih fuel ((x :: xs).drop cols)
              (by simp at ha ⊢; rw [Nat.succ_mul] at ha; omega)
              (by simp at hfuel ⊢; omega)]

theorem reshapeAux_get (cols : ℕ) (hc : 0 < cols) :
    ∀ (r : ℕ) (rows fuel : ℕ) (a : List α) (c : ℕ),
      a.length = rows * cols → a.length ≤ fuel → c < cols →
      ((reshapeAux cols fuel a)[r]?.bind (fun row => row[c]?)) = a[r * cols + c]? := by
  intro r
  induction r with
  | zero =>
    intro rows fuel a c ha hfuel hcc
    cases a with
    | nil => cases fuel <;> simp [reshapeAux]
    | cons x xs =>
      cases fuel with
      | zero => simp at hfuel
      | succ fuel =>
        simp only [reshapeAux, List.getElem?_cons_zero, Option.bind_some,
          Nat.zero_mul, Nat.zero_add]
        exact List.getElem?_take_of_lt hcc
  | succ r ih =>
    intro rows fuel a c ha hfuel hcc
    cases a with
    | nil =>
      cases fuel <;> simp [reshapeAux]
    | cons x xs =>
      cases fuel with
      | zero => simp at hfuel
      | succ fuel =>
        cases rows with
        | zero => simp at ha
        | succ rows =>
          simp only [reshapeAux, List.getElem?_cons_succ]
          rw [ih rows fuel ((x :: xs).drop cols) c
                (by simp at ha ⊢; rw [Nat.succ_mul] at ha; omega)
                (by simp at hfuel ⊢; omega) hcc]
          rw [List.getElem?_drop]
          congr 1
          rw [Nat.succ_mul]
          omega

theorem reshape_flatten (a : List α) (cols : ℕ) (hc : 0 < cols) :
    (reshape a cols).flatten = a :=
  reshapeAux_flatten cols hc a.length a le_rfl

theorem reshape_length (a : List α) (rows cols : ℕ) (hc : 0 < cols)
    (ha : a.length = rows * cols) : (reshape a cols).length = rows :=
  reshapeAux_length cols hc rows a.length a ha le_rfl

theorem reshape_get (a : List α) (rows cols : ℕ) (hc : 0 < cols)
    (ha : a.length = rows * cols) (r c : ℕ) (hcc : c < cols) :
    ((reshape a cols)[r]?.bind (fun row => row[c]?)) = a[r * cols + c]? :=
  reshapeAux_get cols hc r rows a.length a c ha le_rfl hcc

theorem decimate_length {α : Type _} (n : ℕ) (hn : 0 < n) :
    ∀ (a : List α), (decimate n a).length = (a.length + n - 1) / n := by
  intro a
  induction a using decimate.induct n with
  | case1 =>
    simp only [decimate, List.length_nil, Nat.zero_add]
    exact (Nat.div_eq_of_lt (by omega)).symm
  | case2 x xs ih =>
    simp only [decimate, List.length_cons, ih, List.length_drop]
    rcases le_or_lt (n - 1) xs.length with h | h
    · rw [show xs.length - (n - 1) + n - 1 = xs.length by omega,
        show xs.length + 1 + n - 1 = xs.length + n by omega,
        Nat.add_div_right _ hn]
    · rw [show xs.length - (n - 1) + n - 1 = n - 1 by omega,
        Nat.div_eq_of_lt (by omega : n - 1 < n),
        show xs.length + 1 + n - 1 = xs.length + n by omega,
        Nat.add_div_right _ hn,
        Nat.div_eq_of_lt (by omega : xs.length < n)]

theorem decimate_get {α : Type _} (n : ℕ) (hn : 0 < n) :
    ∀ (k : ℕ) (a : List α), (decimate n a)[k]? = a[k * n]? := by
  intro k
  induction k with
  | zero => intro a; cases a <;> simp [decimate]
  | succ k ih =>
    intro a
    cases a with
    | nil => simp [decimate]
    | cons x xs =>
      simp only [decimate, List.getElem?_cons_succ, ih (xs.drop (n - 1)),
        List.getElem?_drop]
      have hidx : (k + 1) * n = (n - 1 + k * n) + 1 := by
        rw [Nat.succ_mul]; omega
      rw [hidx, List.getElem?_cons_succ]

/-! Claim theorems. -/

/-- Claim C1 (code bug): the claim, matching the spec's stated intent,
says the name supplying the input-buffer allocation size is assigned
before the allocation reads it, with intended value the total interleaved
sample count.  In the source the allocation `ul.win_buf_alloc(total_count)`
reads the name `total_count`, which is absent from the set of names
assigned in `measure` up to that point — a `NameError` on every
invocation — while the intended size `ain_pts_per_channel * n_in_channels`
is available under the name `total_input_pts`. -/
theorem claim_C1_alloc_size_name (pulse_length lag_time duration
    adc_rate_per_channel dac_rate n_in : ℚ) :
    allocSizeArg (measureLocalsAtAlloc pulse_length lag_time duration
        adc_rate_per_channel dac_rate n_in) = none ∧
    "total_count" ∉ measureNamesBoundAtAlloc ∧
    (measureLocalsAtAlloc pulse_length lag_time duration
        adc_rate_per_channel dac_rate n_in).lookup "total_input_pts" =
      some (((⌊(lag_time + duration) * adc_rate_per_channel⌋ : ℤ) : ℚ) * n_in) :=
  ⟨rfl, by decide, rfl⟩

/-- Claim C4: `measure` computes the output-point count as
`floor(total * dac_rate)` and the per-channel input-point count as
`floor(total * adc_rate_per_channel)`, where the total measurement time is
`lag_time + duration`. -/
theorem claim_C4_point_counts (adc_rate_per_channel dac_rate lag_time duration : ℚ) :
    (measureCounts adc_rate_per_channel dac_rate lag_time duration).aout_pts =
        ⌊(lag_time + duration) * dac_rate⌋ ∧
    (measureCounts adc_rate_per_channel dac_rate lag_time duration).ain_pts_per_channel =
        ⌊(lag_time + duration) * adc_rate_per_channel⌋ ∧
    (measureCounts adc_rate_per_channel dac_rate lag_time duration).total_meas_time_sec =
        lag_time + duration :=
  ⟨rfl, rfl, rfl⟩

/-- Claim C7 counterexample: the claim says both acquisition buffers are
released at cleanup, but the cleanup trace of the thermal-diffusion
script contains no free of the output waveform buffer (that call is
commented out in the source). -/
theorem claim_C7_counterexample :
    DriverOp.winBufFree Buf.outputBuf ∉ thermalCleanup := by decide

/-- Claim C7 amended: at the end of every `measure` call that reaches the
cleanup step, the input sample buffer is released and the background
output scan is explicitly stopped, but the output waveform buffer is not
released — in the thermal-diffusion script its free is commented out, and
in the four-channel script it is absent. -/
theorem claim_C7_cleanup :
    thermalCleanup = [DriverOp.winBufFree Buf.inputBuf, DriverOp.stopBackgroundAO 0] ∧
    read4Cleanup = [DriverOp.winBufFree Buf.inputBuf, DriverOp.stopBackgroundAO 0] ∧
    DriverOp.winBufFree Buf.inputBuf ∈ thermalCleanup ∧
    DriverOp.stopBackgroundAO 0 ∈ thermalCleanup ∧
    DriverOp.winBufFree Buf.inputBuf ∈ read4Cleanup ∧
    DriverOp.stopBackgroundAO 0 ∈ read4Cleanup ∧
    DriverOp.winBufFree Buf.outputBuf ∉ read4Cleanup :=
  ⟨rfl, rfl, by decide, by decide, by decide, by decide, by decide⟩

/-- Claim C8 counterexample: the claim says the two-channel script
persists a matrix; on concrete raw samples `[0, 1, 2, 3]` (converted by
the identity engineering-unit map) the persisted object of
`read_2_channels.py` is the flat one-dimensional sequence, not a
matrix. -/
theorem claim_C8_counterexample :
    read2Saved (fun z => (z : ℚ)) [0, 1, 2, 3] = SavedArray.flat [0, 1, 2, 3] ∧
    (read2Saved (fun z => (z : ℚ)) [0, 1, 2, 3]).isMatrix = false := by
  constructor
  · unfold read2Saved
    norm_num
  · rfl

/-- Claim C8 amended: the thermal-diffusion script and the four-channel
script reshape the converted samples into a matrix before persisting, but
the two-channel script persists the flat converted sequence without any
reshape. -/
theorem claim_C8_persisted_shapes (to_eng_units : ℤ → ℚ) (raw : List ℤ) :
    read2Saved to_eng_units raw = SavedArray.flat (raw.map to_eng_units) ∧
    (read2Saved to_eng_units raw).isMatrix = false ∧
    (read4Saved to_eng_units raw).isMatrix = true ∧
    (∀ voltage_array n_in, (thermalSaved voltage_array n_in).isMatrix = true) :=
  ⟨rfl, rfl, rfl, fun _ _ => rfl⟩

/-- Claim C2: the output waveform built by `measure` is 0 V at every
index outside `[floor(lag*rate), floor(lag*rate) + floor(pulse*rate))`
and 5 V (the active drive voltage) at every index inside it; for
`pulse_length = 2`, `lag_time = 1`, `duration = 5`, rate 10 the buffer
has length 60 with active samples exactly at indices `[10, 30)`. -/
theorem claim_C2_output_waveform (pulse_length lag_time duration dac_rate : ℚ)
    (hp : 0 ≤ pulse_length) (hl : 0 ≤ lag_time) (hr : 0 ≤ dac_rate)
    (hfit : ⌊lag_time * dac_rate⌋ + ⌊pulse_length * dac_rate⌋ ≤
        ⌊(lag_time + duration) * dac_rate⌋) :
    ((output_data pulse_length lag_time duration dac_rate).length =
        (⌊(lag_time + duration) * dac_rate⌋).toNat ∧
     (∀ i, i < (⌊(lag_time + duration) * dac_rate⌋).toNat →
        (output_data pulse_length lag_time duration dac_rate)[i]? =
          some (if (⌊lag_time * dac_rate⌋).toNat ≤ i ∧
                   i < (⌊lag_time * dac_rate⌋).toNat + (⌊pulse_length * dac_rate⌋).toNat
                then 5 else 0))) ∧
    (output_data 2 1 5 10 =
        List.replicate 10 0 ++ List.replicate 20 5 ++ List.replicate 30 0) ∧
    (output_data 2 1 5 10).length = 60 := by
  have escen : output_data 2 1 5 10 = setRange (List.replicate 60 0) 10 30 5 := by
    simp only [output_data]
    norm_num
    rfl
  refine ⟨⟨?_, ?_⟩, ?_, ?_⟩
  · simp only [output_data]
    rw [setRange_length, List.length_replicate]
  · intro i hi
    simp only [output_data]
    rw [setRange_get, List.getElem?_replicate, if_pos hi]
    rfl
  · rw [escen]; decide
  · rw [escen, setRange_length, List.length_replicate]

/-- Claim C2 witness: the theorem applied at the spec's scenario
`pulse_length = 2`, `lag_time = 1`, `duration = 5`, rate 10. -/
theorem claim_C2_witness :
    ((0:ℚ) ≤ 2 ∧ (0:ℚ) ≤ 1 ∧ (0:ℚ) ≤ 10 ∧
      ⌊(1:ℚ) * 10⌋ + ⌊(2:ℚ) * 10⌋ ≤ ⌊((1:ℚ) + 5) * 10⌋) ∧
    (((output_data 2 1 5 10).length = (⌊((1:ℚ) + 5) * 10⌋).toNat ∧
      (∀ i, i < (⌊((1:ℚ) + 5) * 10⌋).toNat →
        (output_data 2 1 5 10)[i]? =
          some (if (⌊(1:ℚ) * 10⌋).toNat ≤ i ∧
                   i < (⌊(1:ℚ) * 10⌋).toNat + (⌊(2:ℚ) * 10⌋).toNat
                then 5 else 0))) ∧
     (output_data 2 1 5 10 =
        List.replicate 10 0 ++ List.replicate 20 5 ++ List.replicate 30 0) ∧
     (output_data 2 1 5 10).length = 60) :=
  ⟨⟨by norm_num, by norm_num, by norm_num, by norm_num⟩,
   claim_C2_output_waveform 2 1 5 10 (by norm_num) (by norm_num) (by norm_num)
     (by norm_num)⟩

/-- Claim C3 (code bug): the claim, matching the spec, says the assembled
matrix carries per-row elapsed time in its first column.  In the source
the time vector of length `ain_pts_per_channel` is written with stride
`n_in_channels = 7` into the `(n_in_channels + 1)`-wide flat array, whose
`[::7]` slice has `⌈8·ain_pts_per_channel / 7⌉ > ain_pts_per_channel`
slots.  For every `ain_pts_per_channel ≥ 2` the lengths differ and the
size-1 broadcast does not apply, so the interleaving step raises a numpy
broadcast error instead of producing the claimed time column.  (Only the
degenerate `ain_pts_per_channel = 1` — a measurement of one sample per
channel, i.e. under 0.2 ms at the script's 10 kHz rate — broadcasts and
escapes the mismatch.) -/
theorem claim_C3_time_interleave (ain_pts_per_channel : ℕ)
    (h : 2 ≤ ain_pts_per_channel) (actual_rate : ℚ) :
    interleaveTimes 7 ain_pts_per_channel actual_rate = none := by
  unfold interleaveTimes strideAssign
  simp only [List.length_map, List.length_range, List.length_replicate]
  have hne : ¬(ain_pts_per_channel =
        (ain_pts_per_channel * 7 + ain_pts_per_channel + 7 - 1) / 7 ∨
      ain_pts_per_channel = 1) := by omega
  rw [if_neg hne]

/-- Claim C3 witness: the interleaving step fails at the concrete size
`ain_pts_per_channel = 10`. -/
theorem claim_C3_witness :
    2 ≤ 10 ∧ interleaveTimes 7 10 1 = none :=
  ⟨by decide, claim_C3_time_interleave 10 (by decide) 1⟩

/-- Claim C5: reshaping a flat channel-interleaved sequence of length
`channels * rows` into a `rows × channels` matrix recovers, at every
`(row, channel)` pair, the sample at flat index `row * channels +
channel`, and flattening the matrix gives back the original sequence; in
particular a 4-channel flat buffer of 12 samples reshaped to 3×4 has
element `(2,3)` equal to the sample at flat index 11. -/
theorem claim_C5_reshape_roundtrip (xs : List ℚ) (channels rows : ℕ)
    (hc : 0 < channels) (hlen : xs.length = channels * rows) :
    ((reshape xs channels).length = rows ∧
     (∀ r c, c < channels →
        ((reshape xs channels)[r]?.bind (fun row => row[c]?)) =
          xs[r * channels + c]?) ∧
     (reshape xs channels).flatten = xs) ∧
    (((reshape (List.range 12) 4)[2]?.bind (fun row => row[3]?)) =
        (List.range 12)[11]? ∧
     (List.range 12)[11]? = some 11) :=
  ⟨⟨reshape_length xs rows channels hc (by rw [hlen]; ring),
    fun r c hcc => reshape_get xs rows channels hc (by rw [hlen]; ring) r c hcc,
    reshape_flatten xs channels hc⟩,
   by decide, by decide⟩

/-- Claim C5 witness: the theorem applied to the 12-sample, 4-channel
buffer of the spec's scenario. -/
theorem claim_C5_witness :
    (0 < 4 ∧ ((List.range 12).map (fun n => (n : ℚ))).length = 4 * 3) ∧
    (((reshape ((List.range 12).map (fun n => (n : ℚ))) 4).length = 3 ∧
      (∀ r c, c < 4 →
        ((reshape ((List.range 12).map (fun n => (n : ℚ))) 4)[r]?.bind
            (fun row => row[c]?)) =
          ((List.range 12).map (fun n => (n : ℚ)))[r * 4 + c]?) ∧
      (reshape ((List.range 12).map (fun n => (n : ℚ))) 4).flatten =
        (List.range 12).map (fun n => (n : ℚ))) ∧
     (((reshape (List.range 12) 4)[2]?.bind (fun row => row[3]?)) =
        (List.range 12)[11]? ∧
      (List.range 12)[11]? = some 11)) :=
  ⟨⟨by decide, by decide⟩,
   claim_C5_reshape_roundtrip ((List.range 12).map (fun n => (n : ℚ))) 4 3
     (by decide) (by decide)⟩

/-- Claim C6: the decimated copy persisted by `measure` has exactly
`⌈R/100⌉` rows, its `k`-th row is row `k·100` of the full matrix, and the
save step writes the full matrix once and the decimated matrix to both
the binary and the delimited-text file. -/
theorem claim_C6_decimation (outfname : String) (voltage_array : List (List ℚ)) :
    (decimate 100 voltage_array).length = voltage_array.length ⌈/⌉ 100 ∧
    (∀ k, (decimate 100 voltage_array)[k]? = voltage_array[k * 100]?) ∧
    measureSaves outfname voltage_array =
      [(outfname ++ ".npy", voltage_array),
       (outfname ++ "_100Hz.npy", decimate 100 voltage_array),
       (outfname ++ "_100Hz.txt", decimate 100 voltage_array)] := by
  refine ⟨?_, fun k => decimate_get 100 (by norm_num) k voltage_array, rfl⟩
  rw [decimate_length 100 (by norm_num) voltage_array]
  rfl

/-- Claim C9: with an empty device inventory, initialization of both the
thermal-diffusion script and the two-channel script fails fatally before
any device is selected or any channel configuration happens (no fallback
enumeration); with a nonempty inventory, the first discovered device is
the one selected. -/
theorem claim_C9_device_discovery :
    ((initThermal []).2 = Except.error PyErr.indexError ∧
      (∀ b d, DriverOp.createDaqDevice b d ∉ (initThermal []).1) ∧
      (∀ b, DriverOp.aInputModeSingleEnded b ∉ (initThermal []).1)) ∧
    (∀ supported_ranges,
      (initRead2 [] supported_ranges).2 = Except.error PyErr.indexError ∧
      (∀ b d, DriverOp.createDaqDevice b d ∉ (initRead2 [] supported_ranges).1) ∧
      (∀ b, DriverOp.aInputModeSingleEnded b ∉ (initRead2 [] supported_ranges).1)) ∧
    (∀ d rest, DriverOp.createDaqDevice 0 d ∈ (initThermal (d :: rest)).1) ∧
    (∀ d rest supported_ranges,
      DriverOp.createDaqDevice 0 d ∈ (initRead2 (d :: rest) supported_ranges).1) := by
  refine ⟨⟨rfl, ?_, ?_⟩, ?_, ?_, ?_⟩
  · intro b d; simp [initThermal]
  · intro b; simp [initThermal]
  · intro supported_ranges
    cases supported_ranges with
    | nil => exact ⟨rfl, by intro b d; simp [initRead2], by intro b; simp [initRead2]⟩
    | cons r rs => exact ⟨rfl, by intro b d; simp [initRead2], by intro b; simp [initRead2]⟩
  · intro d rest
    simp [initThermal, thermalAttrsAtLine50, List.lookup]
  · intro d rest supported_ranges
    cases supported_ranges with
    | nil => simp [initRead2]
    | cons r rs => simp [initRead2]

/-- Claim C10: constructing `MCCInterface` in the thermal-diffusion
script always raises before `__init__` completes — `IndexError` when no
device is discovered, and otherwise `AttributeError` on the read of the
never-assigned attribute `n_in_channels` on line 50 — so the `__main__`
entry point never reaches `measure`. -/
theorem claim_C10_init_always_raises (devices : List ℕ) :
    (initThermal devices).2 = Except.error
        (match devices with
         | [] => PyErr.indexError
         | _ :: _ => PyErr.attributeError "n_in_channels") ∧
    thermalMainReachesMeasure devices = false := by
  cases devices with
  | nil => exact ⟨rfl, rfl⟩
  | cons d rest => exact ⟨rfl, rfl⟩

end ICThermalDAQ
